import Mathlib

/-!
Verification of the AnyHost reverse-tunnel server core against its
natural-language specification.  The Go source is shallowly embedded:
Go strings become lists of characters, Go maps become association lists
(insertion replaces an existing key, matching Go map assignment), machine
integers become Int/Nat, float64 backoff arithmetic is modelled exactly
over the rationals, and fallible operations return Option/Except.
-/

set_option maxRecDepth 10000

/-- Model of a Go string: a list of characters.  All subdomains, hosts and
paths handled by the claims are ASCII, so a character list is a faithful
model of the UTF-8 Go string values involved. -/
abbrev GoStr := List Char

/-- Model of strings.ToLower on one character, restricted to ASCII (the only
characters the subdomain regex can accept). -/
def goLowerChar (c : Char) : Char :=
  if 'A' ≤ c ∧ c ≤ 'Z' then Char.ofNat (c.toNat + 32) else c

/-- Model of strings.ToLower (src/internal/common/config_test.go line 329 and
elsewhere): lowercase every character. -/
def goToLower (s : GoStr) : GoStr := s.map goLowerChar

/-- Association-list lookup, modelling a Go map read. -/
def lookupA {α : Type} (m : List (GoStr × α)) (k : GoStr) : Option α :=
  match m with
  | [] => none
  | (k0, v0) :: rest => if k0 = k then some v0 else lookupA rest k

/-- Association-list insertion, modelling Go map assignment: replace the
binding when the key is present, append a new binding otherwise. -/
def insertA {α : Type} (m : List (GoStr × α)) (k : GoStr) (v : α) : List (GoStr × α) :=
  match m with
  | [] => [(k, v)]
  | (k0, v0) :: rest => if k0 = k then (k, v) :: rest else (k0, v0) :: insertA rest k v

/-- Association-list removal, modelling Go map delete. -/
def eraseA {α : Type} (m : List (GoStr × α)) (k : GoStr) : List (GoStr × α) :=
  match m with
  | [] => []
  | (k0, v0) :: rest => if k0 = k then rest else (k0, v0) :: eraseA rest k

/-- Character class a-z of the subdomain regex. -/
def isLowerAlpha (c : Char) : Bool := 'a' ≤ c && c ≤ 'z'

/-- Character class a-z0-9- (the regex body class). -/
def isSubdomainBody (c : Char) : Bool :=
  isLowerAlpha c || ('0' ≤ c && c ≤ '9') || c = '-'

/-- Model of subdomainRegex (config_test.go line 268): a string matches
when it starts with a lowercase letter followed by 2 to 62 characters
drawn from a-z, 0-9 and hyphen. -/
def subdomainRegexMatch : GoStr → Bool
  | [] => false
  | c :: rest =>
      isLowerAlpha c && rest.all isSubdomainBody &&
        decide (2 ≤ rest.length) && decide (rest.length ≤ 62)

/-- Identity of a server session as the registry sees it (session.go Session:
the fields Register reads are ID and Token). -/
structure SessionRef where
  id : GoStr
  token : GoStr
deriving DecidableEq

/-- Model of protocol.TunnelConfig (internal/protocol, part_002). -/
structure TunnelConfig where
  Subdomain : GoStr
  LocalPort : Int
  LocalHost : GoStr
  Protocol : GoStr
deriving DecidableEq

/-- Registration error tags, modelling the Go error values that Register and
ValidateSubdomain wrap into the status Error string: protocol.ErrSubdomainInvalid,
protocol.ErrSubdomainReserved, protocol.ErrSubdomainTaken, and the plain
owner-check message of config_test.go line 372. -/
inductive RegErr
  | subdomainInvalid
  | subdomainReserved
  | subdomainTaken
  | ownerReserved
deriving DecidableEq

/-- Model of protocol.TunnelStatus (part_002): Error is the tag of the wrapped
error, none when the Error string is empty. -/
structure TunnelStatus where
  Subdomain : GoStr
  LocalPort : Int
  URL : GoStr
  Status : GoStr
  Error : Option RegErr
deriving DecidableEq

/-- Model of server.TunnelEntry (config_test.go lines 271-277). -/
structure TunnelEntry where
  Subdomain : GoStr
  LocalPort : Int
  LocalHost : GoStr
  Protocol : GoStr
  Session : SessionRef
deriving DecidableEq

/-- Model of server.Registry (config_test.go lines 286-303).  The owner
checker models the SubdomainOwnerChecker collaborator: none when unset;
when set, the function returns none for a database error and some owner
for a successful query (the empty owner string means not reserved). -/
structure Registry where
  tunnels : List (GoStr × TunnelEntry)
  sessions : List (GoStr × SessionRef)
  reservedSubdomains : List GoStr
  domain : GoStr
  ownerChecker : Option (GoStr → Option GoStr)

/-- Model of server.NewRegistry (config_test.go lines 306-318): reserved
subdomains are lowercased on construction. -/
def NewRegistry (domain : GoStr) (reserved : List GoStr) : Registry :=
  { tunnels := []
    sessions := []
    reservedSubdomains := reserved.map goToLower
    domain := domain
    ownerChecker := none }

/-- Model of Registry.ValidateSubdomain (config_test.go lines 328-340):
lowercase, check the regex, then the reserved set; none means valid. -/
def Registry.ValidateSubdomain (r : Registry) (subdomain : GoStr) : Option RegErr :=
  let s := goToLower subdomain
  if !subdomainRegexMatch s then some .subdomainInvalid
  else if r.reservedSubdomains.contains s then some .subdomainReserved
  else none

/-- Model of Registry.buildURL (config_test.go lines 510-514). -/
def Registry.buildURL (r : Registry) (subdomain : GoStr) : GoStr :=
  ("http://".data) ++ subdomain ++ ('.' :: r.domain)

/-- Loop body of Registry.Register (config_test.go lines 350-403): compute
the status of one requested tunnel and the updated registry state. -/
def Registry.registerStep (r : Registry) (session : SessionRef) (tc : TunnelConfig) :
    Registry × TunnelStatus :=
  let subdomain := goToLower tc.Subdomain
  let base : TunnelStatus :=
    { Subdomain := subdomain, LocalPort := tc.LocalPort
      URL := [], Status := [], Error := none }
  match r.ValidateSubdomain subdomain with
  | some e => (r, { base with Status := ("error".data), Error := some e })
  | none =>
    let ownerBlocks : Bool :=
      match r.ownerChecker with
      | none => false
      | some checker =>
        match checker subdomain with
        | none => false
        | some owner => decide (owner ≠ [] ∧ owner ≠ session.token)
    if ownerBlocks then
      (r, { base with Status := ("error".data), Error := some .ownerReserved })
    else
      let inserted : Registry × TunnelStatus :=
        let entry : TunnelEntry :=
          { Subdomain := subdomain, LocalPort := tc.LocalPort
            LocalHost := tc.LocalHost, Protocol := tc.Protocol, Session := session }
        ({ r with tunnels := insertA r.tunnels subdomain entry },
         { base with Status := ("active".data), URL := r.buildURL subdomain })
      match lookupA r.tunnels subdomain with
      | some existing =>
        if existing.Session.id ≠ session.id then
          (r, { base with Status := ("error".data), Error := some .subdomainTaken })
        else inserted
      | none => inserted

/-- Fold of registerStep over the requested tunnels, in order (the for-loop
of Register). -/
def Registry.registerLoop (r : Registry) (session : SessionRef) :
    List TunnelConfig → Registry × List TunnelStatus
  | [] => (r, [])
  | tc :: rest =>
    let p := r.registerStep session tc
    let q := Registry.registerLoop p.1 session rest
    (q.1, p.2 :: q.2)

/-- Model of Registry.Register (config_test.go lines 344-409): run the loop,
then unconditionally insert the session into the sessions map. -/
def Registry.Register (r : Registry) (session : SessionRef) (tunnels : List TunnelConfig) :
    Registry × List TunnelStatus :=
  let p := r.registerLoop session tunnels
  ({ p.1 with sessions := insertA p.1.sessions session.id session }, p.2)

/-- Model of Registry.Lookup (config_test.go lines 447-454). -/
def Registry.Lookup (r : Registry) (subdomain : GoStr) : Option TunnelEntry :=
  lookupA r.tunnels (goToLower subdomain)

/-- Model of strings.Index(host, colon) followed by the cut: keep the part
before the first colon (config_test.go lines 459-461). -/
def cutAtColon (host : GoStr) : GoStr := host.takeWhile (fun c => c ≠ ':')

/-- Model of Registry.LookupByHost (config_test.go lines 457-472). -/
def Registry.LookupByHost (r : Registry) (host : GoStr) : Option TunnelEntry :=
  let h := goToLower (cutAtColon host)
  let suffix := '.' :: r.domain
  if suffix.isSuffixOf h then r.Lookup (h.take (h.length - suffix.length))
  else none

/-- Model of Registry.Unregister (config_test.go lines 412-425). -/
def Registry.Unregister (r : Registry) (sessionID : GoStr) : Registry :=
  { r with
    tunnels := r.tunnels.filter (fun kv => kv.2.Session.id ≠ sessionID)
    sessions := eraseA r.sessions sessionID }

/-- Model of Registry.GetSessionCount (config_test.go lines 503-507). -/
def Registry.GetSessionCount (r : Registry) : Nat := r.sessions.length

/-- Model of Registry.GetTunnelCount (config_test.go lines 496-500). -/
def Registry.GetTunnelCount (r : Registry) : Nat := r.tunnels.length


/-- Model of protocol.MaxMessageSize (codec.go line 13). -/
def MaxMessageSize : Nat := 64 * 1024

/-- Error outcomes of the codec, tagging the distinct return paths of
WriteMessage and ReadMessage (codec.go lines 35-98).  The JSON marshal and
unmarshal steps are Go standard-library calls outside the framing logic;
the model works on the serialised payload bytes directly. -/
inductive CodecErr
  | oversize
  | connectionClosed
  | shortRead
  | zeroLength
deriving DecidableEq

/-- Model of binary.BigEndian.PutUint32 applied to a frame length. -/
def putUint32BE (n : Nat) : List Nat :=
  [n / 2 ^ 24 % 256, n / 2 ^ 16 % 256, n / 2 ^ 8 % 256, n % 256]

/-- Model of binary.BigEndian.Uint32 on a 4-byte buffer. -/
def readUint32BE (b : List Nat) : Nat :=
  b.foldl (fun acc x => acc * 256 + x) 0

/-- Model of Codec.WriteMessage (codec.go lines 35-61) on the serialised
envelope bytes: reject payloads larger than MaxMessageSize, otherwise emit
the 4-byte big-endian length prefix followed by the payload. -/
def Codec.WriteMessage (data : List Nat) : Except CodecErr (List Nat) :=
  if data.length > MaxMessageSize then .error .oversize
  else .ok (putUint32BE data.length ++ data)

/-- Model of Codec.ReadMessage (codec.go lines 64-98) on the incoming byte
stream: EOF at the frame boundary is connectionClosed, a truncated length
or payload is shortRead, oversize and zero lengths are rejected, otherwise
the payload bytes and the remaining stream are returned. -/
def Codec.ReadMessage (input : List Nat) : Except CodecErr (List Nat × List Nat) :=
  if input.length = 0 then .error .connectionClosed
  else if input.length < 4 then .error .shortRead
  else
    let length := readUint32BE (input.take 4)
    if length > MaxMessageSize then .error .oversize
    else if length = 0 then .error .zeroLength
    else
      let rest := input.drop 4
      if rest.length < length then .error .shortRead
      else .ok (rest.take length, rest.drop length)

/-- Outcome of the registration phase of the control-plane handshake. -/
structure HandshakeRegisterResult where
  registry : Registry
  success : Bool
  statuses : List TunnelStatus
  sessionID : Option GoStr

/-- Model of ControlPlane.handleConnection lines 266-312 of control.go:
call registry.Register, scan the statuses for an active tunnel, and send
success=false (closing the session, without touching the registry again)
when none is active, success=true with the session id otherwise. -/
def handshakeRegisterPhase (r : Registry) (session : SessionRef)
    (tunnels : List TunnelConfig) : HandshakeRegisterResult :=
  let p := r.Register session tunnels
  let hasActiveTunnel := p.2.any (fun st => decide (st.Status = ("active".data)))
  if hasActiveTunnel then
    { registry := p.1, success := true, statuses := p.2, sessionID := some session.id }
  else
    { registry := p.1, success := false, statuses := p.2, sessionID := none }

/-- Model of server.SessionState (session.go lines 18-33). -/
inductive SessionState
  | connecting
  | active
  | closing
  | closed
deriving DecidableEq

/-- Lifecycle-relevant state of a server session: its state word and whether
the context, multiplexer and connection have been closed.  The multiplexer
and connection are always non-nil for sessions built by NewSessionWithMux. -/
structure SessionConnState where
  state : SessionState
  cancelled : Bool
  muxClosed : Bool
  connClosed : Bool
deriving DecidableEq

/-- Source of an error collected by Session.Close. -/
inductive CloseErrSrc
  | mux
  | conn
deriving DecidableEq

/-- Model of Session.Close (session.go lines 334-365).  The two Booleans say
whether the multiplexer close and the connection close report an error; the
returned list is the errs slice that Close coalesces into one error (an empty
list is the nil return).  The compare-and-swap succeeds only from the active
state; on any other state Close returns nil immediately. -/
def Session.Close (s : SessionConnState) (muxCloseFails connCloseFails : Bool) :
    SessionConnState × List CloseErrSrc :=
  if s.state = .active then
    let errs :=
      (if muxCloseFails then [CloseErrSrc.mux] else []) ++
      (if connCloseFails then [CloseErrSrc.conn] else [])
    ({ s with state := .closed, cancelled := true, muxClosed := true, connClosed := true },
     errs)
  else (s, [])

/-- Model of client.PoolConfig (pool.go lines 12-27); durations in nanoseconds. -/
structure PoolConfig where
  MaxIdleConns : Int
  MaxOpenConns : Int
  ConnMaxLifetime : Int
  ConnMaxIdleTime : Int
deriving DecidableEq

/-- Model of client.pooledConn (pool.go lines 51-55): the connection is an
opaque identifier, timestamps in nanoseconds. -/
structure PooledConn where
  conn : Nat
  createdAt : Int
  lastUsed : Int
deriving DecidableEq

/-- Model of client.ConnectionPool (pool.go lines 58-72), mutex and the
atomic counters omitted. -/
structure ConnectionPool where
  config : PoolConfig
  idle : List PooledConn
  numOpen : Int
  closed : Bool
deriving DecidableEq

/-- Model of ConnectionPool.Put (pool.go lines 145-173) for a non-nil
connection.  The Boolean result reports whether the connection was closed.
When the pool is open and the idle list has room, the pushed entry carries
createdAt = now and lastUsed = now, both stamped from time.Now() at the
moment of Put. -/
def ConnectionPool.Put (p : ConnectionPool) (conn : Nat) (now : Int) :
    ConnectionPool × Bool :=
  if p.closed then ({ p with numOpen := p.numOpen - 1 }, true)
  else if p.config.MaxIdleConns ≤ (p.idle.length : Int) then
    ({ p with numOpen := p.numOpen - 1 }, true)
  else
    ({ p with idle := p.idle ++ [{ conn := conn, createdAt := now, lastUsed := now }] },
     false)

/-- Model of ConnectionPool.isValidConnection (pool.go lines 211-240).  The
readHealthy flag models the one-byte probe read: true when the read times out
or returns data (healthy), false on EOF or a real error. -/
def isValidConnection (cfg : PoolConfig) (pc : PooledConn) (now : Int)
    (readHealthy : Bool) : Bool :=
  if 0 < cfg.ConnMaxLifetime ∧ cfg.ConnMaxLifetime < now - pc.createdAt then false
  else if 0 < cfg.ConnMaxIdleTime ∧ cfg.ConnMaxIdleTime < now - pc.lastUsed then false
  else readHealthy

/-- Pop loop of ConnectionPool.Get (pool.go lines 103-119), acting on the
idle list reversed so the head is the most recently pushed entry: pop until
a valid connection is found, closing stale ones and decrementing numOpen.
Returns the remaining reversed idle list, the adjusted numOpen, and the hit. -/
def poolGetLoop (cfg : PoolConfig) (revIdle : List PooledConn) (numOpen : Int)
    (now : Int) (health : Nat → Bool) : List PooledConn × Int × Option Nat :=
  match revIdle with
  | [] => ([], numOpen, none)
  | pc :: rest =>
    if isValidConnection cfg pc now (health pc.conn) then (rest, numOpen, some pc.conn)
    else poolGetLoop cfg rest (numOpen - 1) now health

/-- Model of ConnectionPool.Get (pool.go lines 94-142).  The health function
models the probe read per connection; dialOk and freshConn model the outcome
and identity of a fresh dial on cache miss.  Returns none on a closed pool,
pool exhaustion, or dial failure. -/
def ConnectionPool.Get (p : ConnectionPool) (now : Int) (health : Nat → Bool)
    (dialOk : Bool) (freshConn : Nat) : ConnectionPool × Option Nat :=
  if p.closed then (p, none)
  else
    let res := poolGetLoop p.config p.idle.reverse p.numOpen now health
    match res.2.2 with
    | some c => ({ p with idle := res.1.reverse, numOpen := res.2.1 }, some c)
    | none =>
      if 0 < p.config.MaxOpenConns ∧ p.config.MaxOpenConns ≤ res.2.1 then
        ({ p with idle := [], numOpen := res.2.1 }, none)
      else if dialOk then ({ p with idle := [], numOpen := res.2.1 + 1 }, some freshConn)
      else ({ p with idle := [], numOpen := res.2.1 }, none)

/-- Model of common.ReconnectConfig as used by the reconnector (reconnect.go):
delays in nanoseconds, the multiplier a float64 modelled as a rational. -/
structure ReconnectConfig where
  InitialDelay : Int
  MaxDelay : Int
  Multiplier : ℚ
  MaxAttempts : Int

/-- Model of client.Reconnector (reconnect.go lines 14-22), mutex and the
lastAttempt wall-clock field omitted. -/
structure Reconnector where
  config : ReconnectConfig
  attempts : Int
  currentDelay : Int

/-- Model of the Go conversion time.Duration(f) from float64: truncation
toward zero, exact real arithmetic modelled over the rationals. -/
def durationOfFloat (q : ℚ) : Int := if 0 ≤ q then ⌊q⌋ else -⌊-q⌋

/-- Model of NewReconnector (reconnect.go lines 25-31). -/
def NewReconnector (cfg : ReconnectConfig) : Reconnector :=
  { config := cfg, attempts := 0, currentDelay := cfg.InitialDelay }

/-- Model of Reconnector.NextDelay (reconnect.go lines 35-69).  The float64
arithmetic is modelled exactly over the rationals; u is the rand.Float64()
draw, a rational in the interval from 0 inclusive to 1 exclusive.  Returns
the updated reconnector and the delay, -1 being the stop sentinel. -/
def Reconnector.NextDelay (r : Reconnector) (u : ℚ) : Reconnector × Int :=
  let attempts := r.attempts + 1
  if 0 < r.config.MaxAttempts ∧ r.config.MaxAttempts < attempts then
    ({ r with attempts := attempts }, -1)
  else
    let baseDelay : ℚ := (r.config.InitialDelay : ℚ) * r.config.Multiplier ^ (attempts - 1).toNat
    let baseDelay := if (r.config.MaxDelay : ℚ) < baseDelay then (r.config.MaxDelay : ℚ) else baseDelay
    let jitter := baseDelay * (1 / 4) * u
    let delay := durationOfFloat (baseDelay + jitter)
    ({ r with attempts := attempts, currentDelay := delay }, delay)

/-- Model of Reconnector.Reset (reconnect.go lines 72-80). -/
def Reconnector.Reset (r : Reconnector) : Reconnector :=
  { r with attempts := 0, currentDelay := r.config.InitialDelay }

/-- Model of the path and raw query of net/url URL as the proxy uses them. -/
structure URL where
  Path : GoStr
  RawQuery : GoStr
deriving DecidableEq

/-- Model of the net/http Request fields the proxy reads.  Header is an
association list from canonical header name to its value; Go Header.Get
returns the first value or the empty string.  TLS is whether r.TLS is
non-nil. -/
structure Request where
  Method : GoStr
  URL : URL
  Proto : GoStr
  Host : GoStr
  Header : List (GoStr × GoStr)
  RemoteAddr : GoStr
  ContentLength : Int
  Body : GoStr
  TLS : Bool
deriving DecidableEq

/-- Model of http.Header.Get: the stored value for the key, or empty. -/
def headerGet (h : List (GoStr × GoStr)) (k : GoStr) : GoStr :=
  match lookupA h k with
  | some v => v
  | none => []

/-- Model of URL.RequestURI (net/url) for URLs with empty Opaque, no
ForceQuery, and a path equal to its own escaped form: the path (or a bare
slash when empty) followed by the query when non-empty. -/
def URL.RequestURI (u : URL) : GoStr :=
  let result := if u.Path = [] then ("/".data) else u.Path
  if u.RawQuery ≠ [] then result ++ '?' :: u.RawQuery else result

/-- Carriage-return line-feed pair ending every header line. -/
def crlf : GoStr := ['\r', '\n']

/-- Model of strings.TrimSpace restricted to the space character, the only
whitespace the routed values can carry here. -/
def trimSpaceL (s : GoStr) : GoStr :=
  ((s.dropWhile (fun c => c = ' ')).reverse.dropWhile (fun c => c = ' ')).reverse

/-- Model of net.SplitHostPort for bracketless host:port addresses, keeping
the host part; an address without a colon makes SplitHostPort fail and the
caller falls back to the whole address. -/
def splitHostPortHost (addr : GoStr) : GoStr :=
  if addr.contains ':' then ((addr.reverse.dropWhile (fun c => c ≠ ':')).drop 1).reverse
  else addr

/-- Model of getClientIP (part_005 lines 344-365): first the head of
X-Forwarded-For, then X-Real-IP, then the host part of the remote address. -/
def getClientIP (req : Request) : GoStr :=
  let xff := headerGet req.Header ("X-Forwarded-For".data)
  if xff ≠ [] then trimSpaceL (xff.takeWhile (fun c => c ≠ ','))
  else
    let xri := headerGet req.Header ("X-Real-IP".data)
    if xri ≠ [] then trimSpaceL xri
    else splitHostPortHost req.RemoteAddr

/-- Model of getScheme (part_005 lines 368-380). -/
def getScheme (req : Request) : GoStr :=
  let proto := headerGet req.Header ("X-Forwarded-Proto".data)
  if proto ≠ [] then proto
  else if req.TLS then ("https".data)
  else ("http".data)

/-- Model of isWebSocketUpgrade (part_005 lines 337-341). -/
def isWebSocketUpgrade (req : Request) : Bool :=
  let connection := goToLower (headerGet req.Header ("Connection".data))
  let upgrade := goToLower (headerGet req.Header ("Upgrade".data))
  decide (List.IsInfix ("upgrade".data) connection) && decide (upgrade = ("websocket".data))

/-- Serialisation of the request headers as written by http.Header.Write:
one key colon space value crlf line per pair.  Go emits the keys sorted;
the claims only constrain the request-line prefix of the stream, which the
line order does not affect. -/
def headerWriteBytes : List (GoStr × GoStr) → GoStr
  | [] => []
  | (k, v) :: rest => k ++ (": ".data) ++ v ++ crlf ++ headerWriteBytes rest

/-- Model of HTTPProxy.forwardRequest (part_005 lines 218-258): the exact
byte sequence written onto the tunnel stream, in write order: request line,
headers, synthesised Host when absent, the two X-Forwarded headers, the
blank line, then the body when ContentLength is non-zero. -/
def forwardRequestBytes (req : Request) : GoStr :=
  (req.Method ++ (" ".data) ++ req.URL.RequestURI ++ (" ".data) ++ req.Proto ++ crlf)
    ++ headerWriteBytes req.Header
    ++ (if headerGet req.Header ("Host".data) = [] then ("Host: ".data) ++ req.Host ++ crlf else [])
    ++ (("X-Forwarded-For: ".data) ++ getClientIP req ++ crlf)
    ++ (("X-Forwarded-Proto: ".data) ++ getScheme req ++ crlf)
    ++ crlf
    ++ (if req.ContentLength ≠ 0 then req.Body else [])

/-- Model of strings.TrimPrefix(path, slash): drop one leading slash. -/
def trimOneLeadingSlash (s : GoStr) : GoStr :=
  match s with
  | '/' :: rest => rest
  | other => other

/-- Model of strings.SplitN(s, sep, 2): the part before the first separator
and the remainder, or the whole string when the separator is absent. -/
def splitN2 (s : GoStr) (sep : Char) : List GoStr :=
  let pre := s.takeWhile (fun c => c ≠ sep)
  if pre.length = s.length then [s] else [pre, s.drop (pre.length + 1)]

/-- Model of HTTPProxy.lookupByPath (part_005 lines 392-421): returns the
entry found for the first path segment together with the request, whose URL
path is rewritten to the remainder (or a bare slash) exactly when the lookup
succeeds. -/
def HTTPProxy.lookupByPath (r : Registry) (req : Request) :
    Option TunnelEntry × Request :=
  let path := req.URL.Path
  if path = [] ∨ path = ("/".data) then (none, req)
  else
    let p := trimOneLeadingSlash path
    let parts := splitN2 p '/'
    match parts with
    | [] => (none, req)
    | sub0 :: restParts =>
      let subdomain := goToLower sub0
      match r.Lookup subdomain with
      | none => (none, req)
      | some entry =>
        let newPath : GoStr :=
          match restParts with
          | rest1 :: _ => '/' :: rest1
          | [] => ("/".data)
        (some entry, { req with URL := { req.URL with Path := newPath } })

/-- Outcome of HTTPProxy.handleRequest: the HTTP error written back, or the
byte sequence sent onto the freshly opened tunnel stream. -/
inductive ProxyOutcome
  | notFound
  | unavailable
  | badGateway
  | forwarded (bytes : GoStr)
  | websocket (bytes : GoStr)
deriving DecidableEq

/-- Model of HTTPProxy.handleRequest (part_005 lines 136-215) up to the
response phase: resolve the tunnel by host, then path, then the
X-Tunnel-Subdomain header; 404 when unresolved, 503 when the session is not
active, 502 when the stream cannot be opened, otherwise forward the request
bytes (websocket upgrades hijack instead).  active gives each session's
IsActive state at the check and streamOpenOk whether ProxyRequest succeeds;
the returned request is the one the forwarding phase sees. -/
def HTTPProxy.handleRequest (r : Registry) (req : Request)
    (active : GoStr → Bool) (streamOpenOk : Bool) : ProxyOutcome × Request :=
  let isWS := isWebSocketUpgrade req
  let step1 : Option TunnelEntry × Request :=
    match r.LookupByHost req.Host with
    | some e => (some e, req)
    | none =>
      match HTTPProxy.lookupByPath r req with
      | (some e, req1) => (some e, req1)
      | (none, req1) =>
        let sub := headerGet req1.Header ("X-Tunnel-Subdomain".data)
        if sub ≠ [] then (r.Lookup sub, req1) else (none, req1)
  match step1 with
  | (none, req1) => (.notFound, req1)
  | (some entry, req1) =>
    if !(active entry.Session.id) then (.unavailable, req1)
    else if !streamOpenOk then (.badGateway, req1)
    else if isWS then (.websocket (forwardRequestBytes req1), req1)
    else (.forwarded (forwardRequestBytes req1), req1)

theorem goToLower_length (s : GoStr) : (goToLower s).length = s.length := by
  simp [goToLower]

theorem subdomainRegexMatch_boundary_false (s : GoStr)
    (h : s.length = 2 ∨ s.length = 64) : subdomainRegexMatch s = false := by
  match s with
  | [] => simp at h
  | c :: rest =>
    have hr : rest.length = 1 ∨ rest.length = 63 := by
      simpa [Nat.succ_inj] using h
    rcases hr with hr | hr <;>
      simp [subdomainRegexMatch, hr]

theorem validateSubdomain_none_iff (r : Registry) (s : GoStr) :
    r.ValidateSubdomain s = none ↔
      (subdomainRegexMatch (goToLower s) = true ∧
       r.reservedSubdomains.contains (goToLower s) = false) := by
  unfold Registry.ValidateSubdomain
  cases hm : subdomainRegexMatch (goToLower s) <;>
    cases hc : r.reservedSubdomains.contains (goToLower s) <;>
      simp [hm, hc] <;>
        simpa using hc

/-- C4: Registry.ValidateSubdomain accepts exactly the strings that, after
lowercasing, match the admission regex and are not in the reserved set;
strings of length 2 or 64 are rejected with the SUBDOMAIN_INVALID error,
conforming strings of length 3 and 63 are accepted, and a reserved string
matching the regex is rejected with the SUBDOMAIN_RESERVED error. -/
theorem validateSubdomain_admission :
    (∀ (r : Registry) (s : GoStr),
        r.ValidateSubdomain s = none ↔
          (subdomainRegexMatch (goToLower s) = true ∧
           r.reservedSubdomains.contains (goToLower s) = false)) ∧
    (∀ (r : Registry) (s : GoStr), s.length = 2 →
        r.ValidateSubdomain s = some .subdomainInvalid) ∧
    (∀ (r : Registry) (s : GoStr), s.length = 64 →
        r.ValidateSubdomain s = some .subdomainInvalid) ∧
    (∀ (r : Registry) (s : GoStr), (s.length = 3 ∨ s.length = 63) →
        subdomainRegexMatch (goToLower s) = true →
        r.reservedSubdomains.contains (goToLower s) = false →
        r.ValidateSubdomain s = none) ∧
    (∀ (r : Registry) (s : GoStr),
        subdomainRegexMatch (goToLower s) = true →
        r.reservedSubdomains.contains (goToLower s) = true →
        r.ValidateSubdomain s = some .subdomainReserved) := by
  refine ⟨validateSubdomain_none_iff, ?_, ?_, ?_, ?_⟩
  · intro r s h
    have : subdomainRegexMatch (goToLower s) = false :=
      subdomainRegexMatch_boundary_false _ (Or.inl (by simp [goToLower_length, h]))
    simp [Registry.ValidateSubdomain, this]
  · intro r s h
    have : subdomainRegexMatch (goToLower s) = false :=
      subdomainRegexMatch_boundary_false _ (Or.inr (by simp [goToLower_length, h]))
    simp [Registry.ValidateSubdomain, this]
  · intro r s _ hm hc
    exact (validateSubdomain_none_iff r s).mpr ⟨hm, hc⟩
  · intro r s hm hc
    simp [Registry.ValidateSubdomain, hm, hc]
    simpa using hc

/-- Closed instance of validateSubdomain_admission: base domain t.test with
reserved subdomain admin; the boundary strings of the claim. -/
theorem validateSubdomain_admission_witness :
    ((NewRegistry ("t.test".data) [("admin".data)]).ValidateSubdomain ("ab".data)
        = some .subdomainInvalid) ∧
    ((NewRegistry ("t.test".data) [("admin".data)]).ValidateSubdomain ("abc".data)
        = none) ∧
    ((NewRegistry ("t.test".data) [("admin".data)]).ValidateSubdomain
        (List.replicate 63 'a') = none) ∧
    ((NewRegistry ("t.test".data) [("admin".data)]).ValidateSubdomain
        (List.replicate 64 'a') = some .subdomainInvalid) ∧
    ((NewRegistry ("t.test".data) [("admin".data)]).ValidateSubdomain ("Admin".data)
        = some .subdomainReserved) := by
  refine ⟨?_, ?_, ?_, ?_, ?_⟩
  · exact validateSubdomain_admission.2.1 _ _ (by decide)
  · exact validateSubdomain_admission.2.2.2.1 _ _ (Or.inl (by decide)) (by decide) (by decide)
  · exact validateSubdomain_admission.2.2.2.1 _ _ (Or.inr (by decide)) (by decide) (by decide)
  · exact validateSubdomain_admission.2.2.1 _ _ (by decide)
  · exact validateSubdomain_admission.2.2.2.2 _ _ (by decide) (by decide)

theorem putUint32BE_length (n : Nat) : (putUint32BE n).length = 4 := by
  simp [putUint32BE]

theorem readUint32BE_put_65536 : readUint32BE (putUint32BE 65536) = 65536 := by
  decide

/-- C5: Codec.WriteMessage accepts a serialised envelope of exactly 65,536
bytes and rejects 65,537 bytes as oversize; Codec.ReadMessage rejects a
frame whose length prefix exceeds 65,536 or equals 0, and accepts a
well-formed frame whose length prefix is exactly 65,536. -/
theorem codec_frame_size_limits :
    (∀ data : List Nat, data.length = 65536 →
        Codec.WriteMessage data = .ok (putUint32BE 65536 ++ data)) ∧
    (∀ data : List Nat, data.length = 65537 →
        Codec.WriteMessage data = .error .oversize) ∧
    (∀ input : List Nat, 4 ≤ input.length →
        65536 < readUint32BE (input.take 4) →
        Codec.ReadMessage input = .error .oversize) ∧
    (∀ input : List Nat, 4 ≤ input.length →
        readUint32BE (input.take 4) = 0 →
        Codec.ReadMessage input = .error .zeroLength) ∧
    (∀ payload rest : List Nat, payload.length = 65536 →
        Codec.ReadMessage (putUint32BE 65536 ++ (payload ++ rest))
          = .ok (payload, rest)) := by
  refine ⟨?_, ?_, ?_, ?_, ?_⟩
  · intro data h
    simp [Codec.WriteMessage, MaxMessageSize, h]
  · intro data h
    simp [Codec.WriteMessage, MaxMessageSize, h]
  · intro input h4 hlen
    have h0 : input.length ≠ 0 := by omega
    have hlt : ¬ input.length < 4 := by omega
    simp [Codec.ReadMessage, h0, hlt, MaxMessageSize]
    omega
  · intro input h4 hzero
    have h0 : input.length ≠ 0 := by omega
    have hlt : ¬ input.length < 4 := by omega
    simp [Codec.ReadMessage, h0, hlt, MaxMessageSize, hzero]
  · intro payload rest hp
    have hlen : (putUint32BE 65536 ++ (payload ++ rest)).length = 65540 + rest.length := by
      simp [putUint32BE_length, hp]
      omega
    have htake : (putUint32BE 65536 ++ (payload ++ rest)).take 4 = putUint32BE 65536 := by
      have h := List.take_left (putUint32BE 65536) (payload ++ rest)
      rwa [putUint32BE_length] at h
    have hdrop : (putUint32BE 65536 ++ (payload ++ rest)).drop 4 = payload ++ rest := by
      have h := List.drop_left (putUint32BE 65536) (payload ++ rest)
      rwa [putUint32BE_length] at h
    have htake2 : (payload ++ rest).take 65536 = payload := by
      have h := List.take_left payload rest
      rwa [hp] at h
    have hdrop2 : (payload ++ rest).drop 65536 = rest := by
      have h := List.drop_left payload rest
      rwa [hp] at h
    have hrl : (payload ++ rest).length = 65536 + rest.length := by simp [hp]
    simp [Codec.ReadMessage, hlen, htake, hdrop, readUint32BE_put_65536,
      MaxMessageSize, htake2, hdrop2, hrl]
    omega

/-- Closed instance of codec_frame_size_limits at the boundary payloads. -/
theorem codec_frame_size_limits_witness :
    (Codec.WriteMessage (List.replicate 65536 7)
        = .ok (putUint32BE 65536 ++ List.replicate 65536 7)) ∧
    (Codec.WriteMessage (List.replicate 65537 7) = .error .oversize) ∧
    (Codec.ReadMessage [0, 1, 0, 1] = .error .oversize) ∧
    (Codec.ReadMessage [0, 0, 0, 0] = .error .zeroLength) ∧
    (Codec.ReadMessage (putUint32BE 65536 ++ (List.replicate 65536 7 ++ [9]))
        = .ok (List.replicate 65536 7, [9])) := by
  refine ⟨?_, ?_, ?_, ?_, ?_⟩
  · exact codec_frame_size_limits.1 (List.replicate 65536 7) (List.length_replicate 65536 7)
  · exact codec_frame_size_limits.2.1 (List.replicate 65537 7) (List.length_replicate 65537 7)
  · exact codec_frame_size_limits.2.2.1 _ (by decide) (by decide)
  · exact codec_frame_size_limits.2.2.2.1 _ (by decide) (by decide)
  · exact codec_frame_size_limits.2.2.2.2 (List.replicate 65536 7) [9]
      (List.length_replicate 65536 7)

/-- C1: evaluation of the all-tunnels-failed handshake at the spec's reserved
scenario (base domain t.test, reserved subdomain admin, a single requested
tunnel admin:8080).  The response is success=false with the
SUBDOMAIN_RESERVED per-tunnel error and no tunnel entry is added, but
Register has inserted the session unconditionally and the failure path of
handleConnection never unregisters it, so the registry session count grows
from 0 to 1: the handshake error does mutate the registry. -/
theorem failed_handshake_mutates_sessions :
    (handshakeRegisterPhase (NewRegistry ("t.test".data) [("admin".data)])
        { id := ("sess-1".data), token := ("tok".data) }
        [{ Subdomain := ("admin".data), LocalPort := 8080
           LocalHost := [], Protocol := [] }]).success = false ∧
    (handshakeRegisterPhase (NewRegistry ("t.test".data) [("admin".data)])
        { id := ("sess-1".data), token := ("tok".data) }
        [{ Subdomain := ("admin".data), LocalPort := 8080
           LocalHost := [], Protocol := [] }]).statuses
      = [{ Subdomain := ("admin".data), LocalPort := 8080, URL := []
           Status := ("error".data), Error := some .subdomainReserved }] ∧
    (handshakeRegisterPhase (NewRegistry ("t.test".data) [("admin".data)])
        { id := ("sess-1".data), token := ("tok".data) }
        [{ Subdomain := ("admin".data), LocalPort := 8080
           LocalHost := [], Protocol := [] }]).registry.tunnels = [] ∧
    (NewRegistry ("t.test".data) [("admin".data)]).GetSessionCount = 0 ∧
    (handshakeRegisterPhase (NewRegistry ("t.test".data) [("admin".data)])
        { id := ("sess-1".data), token := ("tok".data) }
        [{ Subdomain := ("admin".data), LocalPort := 8080
           LocalHost := [], Protocol := [] }]).registry.GetSessionCount = 1 ∧
    (handshakeRegisterPhase (NewRegistry ("t.test".data) [("admin".data)])
        { id := ("sess-1".data), token := ("tok".data) }
        [{ Subdomain := ("admin".data), LocalPort := 8080
           LocalHost := [], Protocol := [] }]).registry.sessions
      = [(("sess-1".data), { id := ("sess-1".data), token := ("tok".data) })] := by
  refine ⟨?_, ?_, ?_, ?_, ?_, ?_⟩ <;> decide

theorem registerStep_status_fields (r : Registry) (s : SessionRef) (tc : TunnelConfig) :
    ((r.registerStep s tc).2.Subdomain = goToLower tc.Subdomain) ∧
    ((r.registerStep s tc).2.LocalPort = tc.LocalPort) ∧
    ((r.registerStep s tc).2.Status = ("active".data) ∨
     (r.registerStep s tc).2.Status = ("error".data)) := by
  unfold Registry.registerStep
  rcases hv : (r.ValidateSubdomain (goToLower tc.Subdomain)) with _ | e
  · simp only [hv]
    split
    · simp
    · rcases hl : lookupA r.tunnels (goToLower tc.Subdomain) with _ | existing
      · simp [hl]
      · simp only [hl]
        split
        · simp
        · simp
  · simp [hv]

theorem registerLoop_length (s : SessionRef) (ts : List TunnelConfig) :
    ∀ r : Registry, (Registry.registerLoop r s ts).2.length = ts.length := by
  induction ts with
  | nil => intro r; rfl
  | cons tc rest ih =>
    intro r
    simp [Registry.registerLoop, ih]

theorem registerLoop_status_aligned (s : SessionRef) (ts : List TunnelConfig) :
    ∀ (r : Registry) (i : Nat) (hi : i < ts.length)
      (hr : i < (Registry.registerLoop r s ts).2.length),
      (((Registry.registerLoop r s ts).2.get ⟨i, hr⟩).Subdomain
          = goToLower (ts.get ⟨i, hi⟩).Subdomain) ∧
      (((Registry.registerLoop r s ts).2.get ⟨i, hr⟩).LocalPort
          = (ts.get ⟨i, hi⟩).LocalPort) ∧
      (((Registry.registerLoop r s ts).2.get ⟨i, hr⟩).Status = ("active".data) ∨
       ((Registry.registerLoop r s ts).2.get ⟨i, hr⟩).Status = ("error".data)) := by
  induction ts with
  | nil =>
    intro r i hi
    exact absurd hi (by simp)
  | cons tc rest ih =>
    intro r i hi hr
    match i with
    | 0 =>
      simpa [Registry.registerLoop] using registerStep_status_fields r s tc
    | Nat.succ j =>
      have hj : j < rest.length := by simpa using hi
      have hj2 : j < (Registry.registerLoop (r.registerStep s tc).1 s rest).2.length := by
        simpa [registerLoop_length] using hj
      simpa [Registry.registerLoop] using ih (r.registerStep s tc).1 j hj hj2

/-- C2: for every session and every list of n tunnel configurations,
Register returns a status list of length exactly n whose i-th entry
describes the i-th requested tunnel: its subdomain lowercased, its
local port copied, and a status that is either active or error. -/
theorem register_status_list_aligned (r : Registry) (s : SessionRef)
    (ts : List TunnelConfig) :
    ((r.Register s ts).2.length = ts.length) ∧
    (∀ (i : Nat) (hi : i < ts.length) (hr : i < (r.Register s ts).2.length),
      (((r.Register s ts).2.get ⟨i, hr⟩).Subdomain
          = goToLower (ts.get ⟨i, hi⟩).Subdomain) ∧
      (((r.Register s ts).2.get ⟨i, hr⟩).LocalPort = (ts.get ⟨i, hi⟩).LocalPort) ∧
      (((r.Register s ts).2.get ⟨i, hr⟩).Status = ("active".data) ∨
       ((r.Register s ts).2.get ⟨i, hr⟩).Status = ("error".data))) := by
  refine ⟨registerLoop_length s ts r, ?_⟩
  intro i hi hr
  exact registerLoop_status_aligned s ts r i hi hr

/-- Closed instance of register_status_list_aligned: two requested tunnels,
one with a mixed-case subdomain, against an empty registry. -/
theorem register_status_list_aligned_witness :
    ((NewRegistry ("t.test".data) []).Register
        { id := ("A".data), token := ("ta".data) }
        [{ Subdomain := ("MyApp".data), LocalPort := 3000, LocalHost := [], Protocol := [] },
         { Subdomain := ("x".data), LocalPort := 81, LocalHost := [], Protocol := [] }]).2.length = 2 ∧
    (((NewRegistry ("t.test".data) []).Register
        { id := ("A".data), token := ("ta".data) }
        [{ Subdomain := ("MyApp".data), LocalPort := 3000, LocalHost := [], Protocol := [] },
         { Subdomain := ("x".data), LocalPort := 81, LocalHost := [], Protocol := [] }]).2.get
        ⟨0, by decide⟩).Subdomain = ("myapp".data) := by
  constructor
  · exact (register_status_list_aligned _ _ _).1
  · have h := ((register_status_list_aligned (NewRegistry ("t.test".data) [])
      { id := ("A".data), token := ("ta".data) }
      [{ Subdomain := ("MyApp".data), LocalPort := 3000, LocalHost := [], Protocol := [] },
       { Subdomain := ("x".data), LocalPort := 81, LocalHost := [], Protocol := [] }]).2
      0 (by decide) (by decide)).1
    simpa using h

/-- C3: a requested subdomain already mapped to a different session yields
the SUBDOMAIN_TAKEN error and leaves the existing mapping untouched; the
same session re-registers successfully as active; and the handshake
response still carries success=true whenever at least one tunnel in the
request became active. -/
theorem register_collision_semantics :
    (∀ (r : Registry) (s : SessionRef) (tc : TunnelConfig) (e : TunnelEntry),
        r.ValidateSubdomain (goToLower tc.Subdomain) = none →
        r.ownerChecker = none →
        lookupA r.tunnels (goToLower tc.Subdomain) = some e →
        e.Session.id ≠ s.id →
        ((r.registerStep s tc).2.Status = ("error".data) ∧
         (r.registerStep s tc).2.Error = some .subdomainTaken ∧
         (r.registerStep s tc).1.tunnels = r.tunnels ∧
         (r.registerStep s tc).1.Lookup tc.Subdomain = some e)) ∧
    (∀ (r : Registry) (s : SessionRef) (tc : TunnelConfig) (e : TunnelEntry),
        r.ValidateSubdomain (goToLower tc.Subdomain) = none →
        r.ownerChecker = none →
        lookupA r.tunnels (goToLower tc.Subdomain) = some e →
        e.Session.id = s.id →
        (r.registerStep s tc).2.Status = ("active".data)) ∧
    (∀ (r : Registry) (s : SessionRef) (ts : List TunnelConfig),
        ((r.Register s ts).2.any (fun st => decide (st.Status = ("active".data)))
          = true) →
        (handshakeRegisterPhase r s ts).success = true) := by
  refine ⟨?_, ?_, ?_⟩
  · intro r s tc e hv ho hl hne
    unfold Registry.registerStep
    simp only [hv, ho, hl]
    simp [hne, Registry.Lookup, hl]
  · intro r s tc e hv ho hl heq
    unfold Registry.registerStep
    simp only [hv, ho, hl]
    simp [heq]
  · intro r s ts hany
    unfold handshakeRegisterPhase
    simp [hany]

/-- Closed instance of register_collision_semantics: the spec's collision
scenario, session A owning web, session B requesting web and docs. -/
theorem register_collision_semantics_witness :
    (((NewRegistry ("example.test".data) []).Register
          { id := ("A".data), token := ("ta".data) }
          [{ Subdomain := ("web".data), LocalPort := 3000, LocalHost := [], Protocol := [] }]).1.registerStep
        { id := ("B".data), token := ("tb".data) }
        { Subdomain := ("web".data), LocalPort := 4000, LocalHost := [], Protocol := [] }).2.Error
      = some .subdomainTaken ∧
    (((NewRegistry ("example.test".data) []).Register
          { id := ("A".data), token := ("ta".data) }
          [{ Subdomain := ("web".data), LocalPort := 3000, LocalHost := [], Protocol := [] }]).1.registerStep
        { id := ("A".data), token := ("ta".data) }
        { Subdomain := ("web".data), LocalPort := 3000, LocalHost := [], Protocol := [] }).2.Status
      = ("active".data) ∧
    (handshakeRegisterPhase
        ((NewRegistry ("example.test".data) []).Register
          { id := ("A".data), token := ("ta".data) }
          [{ Subdomain := ("web".data), LocalPort := 3000, LocalHost := [], Protocol := [] }]).1
        { id := ("B".data), token := ("tb".data) }
        [{ Subdomain := ("web".data), LocalPort := 4000, LocalHost := [], Protocol := [] },
         { Subdomain := ("docs".data), LocalPort := 5000, LocalHost := [], Protocol := [] }]).success
      = true := by
  refine ⟨?_, ?_, ?_⟩
  · exact (register_collision_semantics.1 _ _ _
      { Subdomain := ("web".data), LocalPort := 3000, LocalHost := [], Protocol := []
        Session := { id := ("A".data), token := ("ta".data) } }
      (by decide) (by rfl) (by decide) (by decide)).2.1
  · exact register_collision_semantics.2.1 _ _ _
      { Subdomain := ("web".data), LocalPort := 3000, LocalHost := [], Protocol := []
        Session := { id := ("A".data), token := ("ta".data) } }
      (by decide) (by rfl) (by decide) (by decide)
  · exact register_collision_semantics.2.2 _ _ _ (by decide)

/-- C6: each NextDelay call increments the attempt counter; once the counter
has reached a positive MaxAttempts the next call returns the stop sentinel
-1 (so the k+1-th call from a fresh reconnector stops); below the cap, the
returned delay is the truncation of base + jitter where base is the minimum
of InitialDelay times Multiplier to the power attempt-1 and MaxDelay, and
the jitter is at most a quarter of that capped base; Reset returns the
reconnector to the fresh state so the next call computes attempt 1 again. -/
theorem reconnector_backoff_spec :
    (∀ (r : Reconnector) (u : ℚ), ((r.NextDelay u).1).attempts = r.attempts + 1) ∧
    (∀ (r : Reconnector) (u : ℚ),
        0 < r.config.MaxAttempts → r.config.MaxAttempts ≤ r.attempts →
        (r.NextDelay u).2 = -1) ∧
    (∀ (r : Reconnector) (u : ℚ),
        r.attempts < r.config.MaxAttempts →
        0 ≤ r.config.InitialDelay → 0 ≤ r.config.Multiplier →
        0 ≤ r.config.MaxDelay → 0 ≤ u → u < 1 →
        ((r.NextDelay u).2 =
          durationOfFloat
            (min ((r.config.InitialDelay : ℚ) * r.config.Multiplier ^ r.attempts.toNat)
                 (r.config.MaxDelay : ℚ) *
              (1 + u / 4)) ∧
         (min ((r.config.InitialDelay : ℚ) * r.config.Multiplier ^ r.attempts.toNat)
              (r.config.MaxDelay : ℚ) - 1
            < ((r.NextDelay u).2 : ℚ)) ∧
         (((r.NextDelay u).2 : ℚ) ≤
            min ((r.config.InitialDelay : ℚ) * r.config.Multiplier ^ r.attempts.toNat)
                (r.config.MaxDelay : ℚ) * (5 / 4)))) ∧
    (∀ r : Reconnector, r.Reset = NewReconnector r.config) := by
  refine ⟨?_, ?_, ?_, ?_⟩
  · intro r u
    simp only [Reconnector.NextDelay]
    split <;> rfl
  · intro r u h1 h2
    unfold Reconnector.NextDelay
    have : 0 < r.config.MaxAttempts ∧ r.config.MaxAttempts < r.attempts + 1 := by
      exact ⟨h1, by omega⟩
    simp [this]
  · intro r u hlt hinit hmul hmax hu0 hu1
    have hcond : ¬ (0 < r.config.MaxAttempts ∧ r.config.MaxAttempts < r.attempts + 1) := by
      omega
    have hexp : (r.attempts + 1 - 1).toNat = r.attempts.toNat := by
      omega
    set B : ℚ := (r.config.InitialDelay : ℚ) * r.config.Multiplier ^ r.attempts.toNat with hB
    have hBmin :
        (if (r.config.MaxDelay : ℚ) < B then (r.config.MaxDelay : ℚ) else B)
          = min B (r.config.MaxDelay : ℚ) := by
      rcases lt_or_ge (r.config.MaxDelay : ℚ) B with h | h
      · simp [h, min_eq_right h.le]
      · simp [not_lt.mpr h, min_eq_left h]
    have hB0 : 0 ≤ B := by
      apply mul_nonneg
      · exact_mod_cast hinit
      · exact pow_nonneg hmul _
    set C : ℚ := min B (r.config.MaxDelay : ℚ) with hC
    have hC0 : 0 ≤ C := le_min hB0 (by exact_mod_cast hmax)
    have heq : (r.NextDelay u).2 = durationOfFloat (C + C * (1 / 4) * u) := by
      unfold Reconnector.NextDelay
      simp only [hcond, if_false, hexp, ← hB, hBmin, ← hC]
    have hform : C + C * (1 / 4) * u = C * (1 + u / 4) := by ring
    have hjit0 : 0 ≤ C * (1 / 4) * u := by positivity
    have hjit1 : C * (1 / 4) * u ≤ C * (1 / 4) := by
      calc C * (1 / 4) * u ≤ C * (1 / 4) * 1 := by
            apply mul_le_mul_of_nonneg_left hu1.le
            positivity
        _ = C * (1 / 4) := by ring
    have harg0 : 0 ≤ C + C * (1 / 4) * u := by linarith
    have hdf : durationOfFloat (C + C * (1 / 4) * u) = ⌊C + C * (1 / 4) * u⌋ := by
      unfold durationOfFloat
      rw [if_pos harg0]
    refine ⟨by rw [heq, hform], ?_, ?_⟩
    · rw [heq, hdf]
      have h1 : C - 1 < ⌊C + C * (1 / 4) * u⌋ := by
        have := Int.sub_one_lt_floor (C + C * (1 / 4) * u)
        have h2 : (C : ℚ) - 1 ≤ C + C * (1 / 4) * u - 1 := by linarith
        exact_mod_cast lt_of_le_of_lt h2 this
      exact_mod_cast h1
    · rw [heq, hdf]
      have h1 : (⌊C + C * (1 / 4) * u⌋ : ℚ) ≤ C + C * (1 / 4) * u :=
        Int.floor_le _
      have h2 : C + C * (1 / 4) * u ≤ C * (5 / 4) := by linarith
      exact_mod_cast le_trans h1 h2
  · intro r
    rfl

/-- Closed instance of reconnector_backoff_spec: the spec's reconnect
parameters, one second initial delay, multiplier two, ten second cap,
with a max of two attempts and jitter draw one half. -/
theorem reconnector_backoff_spec_witness :
    ((NewReconnector
        { InitialDelay := 1000000000, MaxDelay := 10000000000
          Multiplier := 2, MaxAttempts := 2 }).NextDelay (1 / 2)).1.attempts = 1 ∧
    ((NewReconnector
        { InitialDelay := 1000000000, MaxDelay := 10000000000
          Multiplier := 2, MaxAttempts := 2 }).NextDelay (1 / 2)).2 =
      durationOfFloat
        (min ((1000000000 : ℚ) * 2 ^ (0 : Nat)) (10000000000 : ℚ) * (1 + (1 / 2) / 4)) ∧
    ({ config := { InitialDelay := 1000000000, MaxDelay := 10000000000
                   Multiplier := 2, MaxAttempts := 2 }
       attempts := 2, currentDelay := 1250000000 } : Reconnector).NextDelay (1 / 2)
      = ({ config := { InitialDelay := 1000000000, MaxDelay := 10000000000
                       Multiplier := 2, MaxAttempts := 2 }
           attempts := 3, currentDelay := 1250000000 }, -1) ∧
    ({ config := { InitialDelay := 1000000000, MaxDelay := 10000000000
                   Multiplier := 2, MaxAttempts := 2 }
       attempts := 2, currentDelay := 1250000000 } : Reconnector).Reset
      = NewReconnector
          { InitialDelay := 1000000000, MaxDelay := 10000000000
            Multiplier := 2, MaxAttempts := 2 } := by
  refine ⟨?_, ?_, ?_, ?_⟩
  · exact reconnector_backoff_spec.1 _ _
  · have h := (reconnector_backoff_spec.2.2.1
      (NewReconnector
        { InitialDelay := 1000000000, MaxDelay := 10000000000
          Multiplier := 2, MaxAttempts := 2 }) (1 / 2)
      (by norm_num [NewReconnector]) (by norm_num [NewReconnector])
      (by norm_num [NewReconnector]) (by norm_num [NewReconnector])
      (by norm_num) (by norm_num)).1
    simpa [NewReconnector] using h
  · have h2 := reconnector_backoff_spec.2.1
      ({ config := { InitialDelay := 1000000000, MaxDelay := 10000000000
                     Multiplier := 2, MaxAttempts := 2 }
         attempts := 2, currentDelay := 1250000000 } : Reconnector) (1 / 2)
      (by norm_num) (by norm_num)
    have h1 := reconnector_backoff_spec.1
      ({ config := { InitialDelay := 1000000000, MaxDelay := 10000000000
                     Multiplier := 2, MaxAttempts := 2 }
         attempts := 2, currentDelay := 1250000000 } : Reconnector) (1 / 2)
    have hc : (({ config := { InitialDelay := 1000000000, MaxDelay := 10000000000
                              Multiplier := 2, MaxAttempts := 2 }
                  attempts := 2, currentDelay := 1250000000 } : Reconnector).NextDelay
                (1 / 2)).1.currentDelay = 1250000000 := by
      unfold Reconnector.NextDelay
      norm_num
    have hcfg : (({ config := { InitialDelay := 1000000000, MaxDelay := 10000000000
                                Multiplier := 2, MaxAttempts := 2 }
                    attempts := 2, currentDelay := 1250000000 } : Reconnector).NextDelay
                  (1 / 2)).1.config
        = { InitialDelay := 1000000000, MaxDelay := 10000000000
            Multiplier := 2, MaxAttempts := 2 } := by
      unfold Reconnector.NextDelay
      norm_num
    refine Prod.ext ?_ h2
    cases hres : (({ config := { InitialDelay := 1000000000, MaxDelay := 10000000000
                                 Multiplier := 2, MaxAttempts := 2 }
                     attempts := 2, currentDelay := 1250000000 } : Reconnector).NextDelay
                   (1 / 2)).1 with
    | mk cfg att cur =>
      have e1 : cfg = { InitialDelay := 1000000000, MaxDelay := 10000000000
                        Multiplier := 2, MaxAttempts := 2 } := by
        rw [← hcfg, hres]
      have e2 : att = 3 := by
        have := h1
        rw [hres] at this
        simpa using this
      have e3 : cur = 1250000000 := by
        rw [← hc, hres]
      simp [e1, e2, e3]
  · exact reconnector_backoff_spec.2.2.2 _

/-- C7 counterexample: a connection dialled at time 0 (its idle entry records
createdAt = 0) is taken out of the pool by Get and returned by Put at time
50; the entry Put pushes carries createdAt = 50, not the original creation
time 0, because Put stamps both createdAt and lastUsed from time.Now(). -/
theorem pool_put_createdAt_counterexample :
    ((({ config := { MaxIdleConns := 10, MaxOpenConns := 100
                     ConnMaxLifetime := 300, ConnMaxIdleTime := 60 }
         idle := [{ conn := 1, createdAt := 0, lastUsed := 0 }]
         numOpen := 1, closed := false } : ConnectionPool).Get 4
        (fun _ => true) true 99).2 = some 1) ∧
    ((({ config := { MaxIdleConns := 10, MaxOpenConns := 100
                     ConnMaxLifetime := 300, ConnMaxIdleTime := 60 }
         idle := [{ conn := 1, createdAt := 0, lastUsed := 0 }]
         numOpen := 1, closed := false } : ConnectionPool).Get 4
        (fun _ => true) true 99).1.idle = []) ∧
    (((({ config := { MaxIdleConns := 10, MaxOpenConns := 100
                      ConnMaxLifetime := 300, ConnMaxIdleTime := 60 }
          idle := [{ conn := 1, createdAt := 0, lastUsed := 0 }]
          numOpen := 1, closed := false } : ConnectionPool).Get 4
         (fun _ => true) true 99).1.Put 1 50).1.idle
      = [{ conn := 1, createdAt := 50, lastUsed := 50 }]) ∧
    (({ conn := 1, createdAt := 50, lastUsed := 50 } : PooledConn).createdAt ≠ 0) := by
  refine ⟨?_, ?_, ?_, ?_⟩ <;> decide

/-- C7 amended: for every open ConnectionPool whose idle list is not full,
Put pushes an idle entry whose createdAt and lastUsed fields are BOTH set to
the current time (the original creation time is not preserved); if the pool
is closed or the idle list is full, Put closes the connection and decrements
numOpen, leaving the idle list unchanged. -/
theorem pool_put_spec (p : ConnectionPool) (conn : Nat) (now : Int) :
    (p.closed = false → (p.idle.length : Int) < p.config.MaxIdleConns →
      ((p.Put conn now).1 =
        { p with idle := p.idle ++ [{ conn := conn, createdAt := now, lastUsed := now }] } ∧
       (p.Put conn now).2 = false)) ∧
    ((p.closed = true ∨ p.config.MaxIdleConns ≤ (p.idle.length : Int)) →
      ((p.Put conn now).1 = { p with numOpen := p.numOpen - 1 } ∧
       (p.Put conn now).1.idle = p.idle ∧
       (p.Put conn now).2 = true)) := by
  constructor
  · intro hopen hroom
    unfold ConnectionPool.Put
    rw [if_neg (by simp [hopen]), if_neg (by simpa using not_le.mpr hroom)]
    exact ⟨rfl, rfl⟩
  · intro h
    rcases h with hclosed | hfull
    · unfold ConnectionPool.Put
      rw [if_pos hclosed]
      exact ⟨rfl, rfl, rfl⟩
    · unfold ConnectionPool.Put
      by_cases hclosed : p.closed = true
      · rw [if_pos hclosed]
        exact ⟨rfl, rfl, rfl⟩
      · rw [if_neg hclosed, if_pos hfull]
        exact ⟨rfl, rfl, rfl⟩

/-- Closed instance of pool_put_spec: a push into an open pool with room,
and a refused push into a full pool. -/
theorem pool_put_spec_witness :
    ((({ config := { MaxIdleConns := 1, MaxOpenConns := 100
                     ConnMaxLifetime := 300, ConnMaxIdleTime := 60 }
         idle := [], numOpen := 1, closed := false } : ConnectionPool).Put 5 7).1
      = { config := { MaxIdleConns := 1, MaxOpenConns := 100
                      ConnMaxLifetime := 300, ConnMaxIdleTime := 60 }
          idle := [{ conn := 5, createdAt := 7, lastUsed := 7 }]
          numOpen := 1, closed := false }) ∧
    ((({ config := { MaxIdleConns := 1, MaxOpenConns := 100
                     ConnMaxLifetime := 300, ConnMaxIdleTime := 60 }
         idle := [{ conn := 5, createdAt := 7, lastUsed := 7 }]
         numOpen := 2, closed := false } : ConnectionPool).Put 6 9).1
      = { config := { MaxIdleConns := 1, MaxOpenConns := 100
                      ConnMaxLifetime := 300, ConnMaxIdleTime := 60 }
          idle := [{ conn := 5, createdAt := 7, lastUsed := 7 }]
          numOpen := 1, closed := false }) := by
  constructor
  · exact ((pool_put_spec _ 5 7).1 (by rfl) (by decide)).1
  · exact ((pool_put_spec _ 6 9).2 (Or.inr (by decide))).1

/-- C9 counterexample: a session still in the connecting state (exactly the
state of a session whose handshake just failed, which handleConnection then
Closes).  The first call to Close returns nil without any effect: the state
stays connecting, and neither the multiplexer nor the connection is closed,
because the compare-and-swap in Close only fires from the active state. -/
theorem session_close_connecting_counterexample :
    (Session.Close
        { state := .connecting, cancelled := false
          muxClosed := false, connClosed := false } false false
      = ({ state := .connecting, cancelled := false
           muxClosed := false, connClosed := false }, [])) ∧
    ((Session.Close
        { state := .connecting, cancelled := false
          muxClosed := false, connClosed := false } false false).1.state
      ≠ .closed) ∧
    ((Session.Close
        { state := .connecting, cancelled := false
          muxClosed := false, connClosed := false } false false).1.muxClosed
      = false) := by
  refine ⟨?_, ?_, ?_⟩ <;> decide

/-- C9 amended: the first Close of an ACTIVE session wins the
compare-and-swap, drives the state to closed, closes the multiplexer and the
underlying connection, and coalesces their errors into one result (nil
exactly when both closes succeed); a Close in any other state, the
connecting state included, returns nil with no effect; every call after the
first returns nil with no further effect, so Close is idempotent. -/
theorem session_close_spec (s : SessionConnState) (em ec : Bool) :
    (s.state = .active →
      ((Session.Close s em ec).1.state = .closed ∧
       (Session.Close s em ec).1.muxClosed = true ∧
       (Session.Close s em ec).1.connClosed = true ∧
       ((Session.Close s em ec).2 =
          (if em then [CloseErrSrc.mux] else []) ++
          (if ec then [CloseErrSrc.conn] else [])) ∧
       ((Session.Close s em ec).2 = [] ↔ (em = false ∧ ec = false)))) ∧
    (s.state ≠ .active → Session.Close s em ec = (s, [])) ∧
    (∀ em2 ec2 : Bool,
      (Session.Close (Session.Close s em ec).1 em2 ec2).2 = [] ∧
      (Session.Close (Session.Close s em ec).1 em2 ec2).1
        = (Session.Close s em ec).1) := by
  have hnoop : ∀ (t : SessionConnState) (e1 e2 : Bool),
      t.state ≠ .active → Session.Close t e1 e2 = (t, []) := by
    intro t e1 e2 h
    unfold Session.Close
    rw [if_neg h]
  refine ⟨?_, hnoop s em ec, ?_⟩
  · intro ha
    unfold Session.Close
    rw [if_pos ha]
    refine ⟨rfl, rfl, rfl, rfl, ?_⟩
    cases em <;> cases ec <;> simp
  · intro em2 ec2
    by_cases ha : s.state = .active
    · have h1 : (Session.Close s em ec).1.state = .closed := by
        unfold Session.Close
        rw [if_pos ha]
      have hne : (Session.Close s em ec).1.state ≠ .active := by
        rw [h1]
        intro hcontra
        exact SessionState.noConfusion hcontra
      rw [hnoop _ em2 ec2 hne]
      exact ⟨rfl, rfl⟩
    · simp only [hnoop s em ec ha]
      rw [hnoop s em2 ec2 ha]
      exact ⟨rfl, rfl⟩

/-- Closed instance of session_close_spec: an active session whose
multiplexer close fails, closed twice. -/
theorem session_close_spec_witness :
    ((Session.Close
        { state := .active, cancelled := false
          muxClosed := false, connClosed := false } true false).1.state = .closed) ∧
    ((Session.Close
        { state := .active, cancelled := false
          muxClosed := false, connClosed := false } true false).2
      = [CloseErrSrc.mux]) ∧
    ((Session.Close
        (Session.Close
          { state := .active, cancelled := false
            muxClosed := false, connClosed := false } true false).1 false false).2
      = []) := by
  refine ⟨?_, ?_, ?_⟩
  · exact ((session_close_spec _ true false).1 rfl).1
  · exact ((session_close_spec _ true false).1 rfl).2.2.2.1
  · exact ((session_close_spec _ true false).2.2 false false).1

theorem lookupByPath_cases (r : Registry) (req : Request) :
    HTTPProxy.lookupByPath r req = (none, req) ∨
    ∃ e req1, HTTPProxy.lookupByPath r req = (some e, req1) := by
  simp only [HTTPProxy.lookupByPath]
  split
  · exact Or.inl rfl
  · split
    · exact Or.inl rfl
    · split
      · exact Or.inl rfl
      · exact Or.inr ⟨_, _, rfl⟩

theorem lookupByPath_miss_id (r : Registry) (req : Request)
    (h : (HTTPProxy.lookupByPath r req).1 = none) :
    (HTTPProxy.lookupByPath r req).2 = req := by
  rcases lookupByPath_cases r req with he | ⟨e, req1, he⟩
  · rw [he]
  · rw [he] at h
    simp at h

/-- C10: when the first path segment does not resolve to a registered
subdomain, the path-based fallback returns not-found and leaves the
request untouched; the URL path is rewritten only when the lookup
succeeds, so a request that then falls through to the
X-Tunnel-Subdomain fallback or to the 404 response is the original one. -/
theorem lookupByPath_frame_property :
    (∀ (r : Registry) (req : Request),
        (HTTPProxy.lookupByPath r req).1 = none →
        (HTTPProxy.lookupByPath r req).2 = req) ∧
    (∀ (r : Registry) (req : Request) (sub0 : GoStr) (restParts : List GoStr),
        splitN2 (trimOneLeadingSlash req.URL.Path) '/' = sub0 :: restParts →
        r.Lookup (goToLower sub0) = none →
        HTTPProxy.lookupByPath r req = (none, req)) ∧
    (∀ (r : Registry) (req : Request) (active : GoStr → Bool) (so : Bool),
        r.LookupByHost req.Host = none →
        (HTTPProxy.lookupByPath r req).1 = none →
        headerGet req.Header ("X-Tunnel-Subdomain".data) = [] →
        HTTPProxy.handleRequest r req active so = (.notFound, req)) := by
  refine ⟨lookupByPath_miss_id, ?_, ?_⟩
  · intro r req sub0 restParts hsplit hnone
    simp only [HTTPProxy.lookupByPath]
    split
    · rfl
    · rw [hsplit]
      simp [hnone]
  · intro r req active so hhost hmiss hhdr
    have hpair : HTTPProxy.lookupByPath r req = (none, req) := by
      have h2 := lookupByPath_miss_id r req hmiss
      calc HTTPProxy.lookupByPath r req
          = ((HTTPProxy.lookupByPath r req).1, (HTTPProxy.lookupByPath r req).2) := rfl
        _ = (none, req) := by rw [hmiss, h2]
    simp only [HTTPProxy.handleRequest, hhost, hpair, hhdr]
    simp

/-- Closed instance of lookupByPath_frame_property: an empty registry, a
request for path other/x routed to 404 with the request unchanged. -/
theorem lookupByPath_frame_property_witness :
    (HTTPProxy.lookupByPath (NewRegistry ("t.test".data) [])
        { Method := ("GET".data)
          URL := { Path := ("/other/x".data), RawQuery := [] }
          Proto := ("HTTP/1.1".data), Host := ("t.test".data), Header := []
          RemoteAddr := ("1.2.3.4:9".data), ContentLength := 0, Body := []
          TLS := false }
      = (none,
         { Method := ("GET".data)
           URL := { Path := ("/other/x".data), RawQuery := [] }
           Proto := ("HTTP/1.1".data), Host := ("t.test".data), Header := []
           RemoteAddr := ("1.2.3.4:9".data), ContentLength := 0, Body := []
           TLS := false })) ∧
    (HTTPProxy.handleRequest (NewRegistry ("t.test".data) [])
        { Method := ("GET".data)
          URL := { Path := ("/other/x".data), RawQuery := [] }
          Proto := ("HTTP/1.1".data), Host := ("t.test".data), Header := []
          RemoteAddr := ("1.2.3.4:9".data), ContentLength := 0, Body := []
          TLS := false } (fun _ => true) true
      = (.notFound,
         { Method := ("GET".data)
           URL := { Path := ("/other/x".data), RawQuery := [] }
           Proto := ("HTTP/1.1".data), Host := ("t.test".data), Header := []
           RemoteAddr := ("1.2.3.4:9".data), ContentLength := 0, Body := []
           TLS := false })) := by
  constructor
  · exact lookupByPath_frame_property.2.1 _ _ ("other".data) [("x".data)]
      (by decide) (by decide)
  · exact lookupByPath_frame_property.2.2 _ _ _ _ (by decide) (by decide) (by rfl)

theorem takeWhile_ne_slash_append (sub rest : GoStr) (h : ∀ c ∈ sub, c ≠ '/') :
    (sub ++ '/' :: rest).takeWhile (fun c => decide (c ≠ '/')) = sub := by
  induction sub with
  | nil => rw [List.nil_append, List.takeWhile_cons, if_neg (by decide)]
  | cons c cs ih =>
    have hc : decide (c ≠ '/') = true :=
      decide_eq_true (h c (List.mem_cons_self c cs))
    have hcs : ∀ x ∈ cs, x ≠ '/' := fun x hx => h x (List.mem_cons_of_mem c hx)
    rw [List.cons_append, List.takeWhile_cons, if_pos hc, ih hcs]

theorem takeWhile_ne_slash_all (sub : GoStr) (h : ∀ c ∈ sub, c ≠ '/') :
    sub.takeWhile (fun c => decide (c ≠ '/')) = sub := by
  induction sub with
  | nil => rfl
  | cons c cs ih =>
    have hc : decide (c ≠ '/') = true :=
      decide_eq_true (h c (List.mem_cons_self c cs))
    have hcs : ∀ x ∈ cs, x ≠ '/' := fun x hx => h x (List.mem_cons_of_mem c hx)
    rw [List.takeWhile_cons, if_pos hc, ih hcs]

theorem splitN2_segment (sub rest : GoStr) (h : ∀ c ∈ sub, c ≠ '/') :
    splitN2 (sub ++ '/' :: rest) '/' = [sub, rest] := by
  unfold splitN2
  rw [takeWhile_ne_slash_append sub rest h]
  have hlen : sub.length ≠ (sub ++ '/' :: rest).length := by
    simp
  rw [if_neg hlen]
  have hdrop : (sub ++ '/' :: rest).drop (sub.length + 1) = rest := by
    have h1 : sub ++ '/' :: rest = (sub ++ ['/']) ++ rest := by simp
    rw [h1]
    have h2 := List.drop_left (sub ++ ['/']) rest
    rw [List.length_append, List.length_singleton] at h2
    exact h2
  rw [hdrop]

theorem splitN2_whole (sub : GoStr) (h : ∀ c ∈ sub, c ≠ '/') :
    splitN2 sub '/' = [sub] := by
  unfold splitN2
  rw [takeWhile_ne_slash_all sub h, if_pos rfl]

theorem lookupByPath_hit (r : Registry) (req : Request) (sub rest : GoStr)
    (e : TunnelEntry)
    (hpath : req.URL.Path = '/' :: (sub ++ '/' :: rest))
    (hsub : ∀ c ∈ sub, c ≠ '/')
    (hfound : r.Lookup (goToLower sub) = some e) :
    HTTPProxy.lookupByPath r req
      = (some e, { req with URL := { req.URL with Path := '/' :: rest } }) := by
  have hcond : ¬ (req.URL.Path = [] ∨ req.URL.Path = ("/".data)) := by
    rw [hpath]
    push_neg
    constructor
    · simp
    · intro hcontra
      have := congrArg List.length hcontra
      simp at this
  simp only [HTTPProxy.lookupByPath]
  rw [if_neg hcond, hpath]
  have htrim : trimOneLeadingSlash ('/' :: (sub ++ '/' :: rest)) = sub ++ '/' :: rest := rfl
  rw [htrim, splitN2_segment sub rest hsub]
  simp [hfound]

theorem lookupByPath_hit_root (r : Registry) (req : Request) (sub : GoStr)
    (e : TunnelEntry)
    (hpath : req.URL.Path = '/' :: sub)
    (hsub : ∀ c ∈ sub, c ≠ '/')
    (hsubne : sub ≠ [])
    (hfound : r.Lookup (goToLower sub) = some e) :
    HTTPProxy.lookupByPath r req
      = (some e, { req with URL := { req.URL with Path := ("/".data) } }) := by
  have hcond : ¬ (req.URL.Path = [] ∨ req.URL.Path = ("/".data)) := by
    rw [hpath]
    push_neg
    constructor
    · simp
    · intro hcontra
      have hsub0 : sub = [] := by simpa using hcontra
      exact hsubne hsub0
  simp only [HTTPProxy.lookupByPath]
  rw [if_neg hcond, hpath]
  have htrim : trimOneLeadingSlash ('/' :: sub) = sub := rfl
  rw [htrim, splitN2_whole sub hsub]
  simp [hfound]

theorem forwardRequestBytes_decomp (req : Request) :
    forwardRequestBytes req
      = (req.Method ++ (" ".data) ++ req.URL.RequestURI ++ (" ".data)
          ++ req.Proto ++ crlf)
        ++ (headerWriteBytes req.Header
            ++ ((if headerGet req.Header ("Host".data) = []
                  then ("Host: ".data) ++ req.Host ++ crlf else [])
                ++ ((("X-Forwarded-For: ".data) ++ getClientIP req ++ crlf)
                    ++ ((("X-Forwarded-Proto: ".data) ++ getScheme req ++ crlf)
                        ++ (crlf
                            ++ (if req.ContentLength ≠ 0 then req.Body else [])))))) := by
  unfold forwardRequestBytes
  simp only [List.append_assoc]

theorem forwardRequestBytes_line_prefix (req : Request) :
    List.IsPrefix
      (req.Method ++ (" ".data) ++ req.URL.RequestURI ++ (" ".data)
        ++ req.Proto ++ crlf)
      (forwardRequestBytes req) :=
  ⟨_, (forwardRequestBytes_decomp req).symm⟩

/-- C8: when the host does not resolve but the lowercased first path segment
is a registered subdomain, the proxy rewrites the path to the remainder
after that segment (or a bare slash when there is none) and the byte
sequence written onto the tunnel stream begins with the request line built
from the rewritten path and the original query. -/
theorem proxy_path_rewrite_forwarding :
    (∀ (r : Registry) (req : Request) (sub rest : GoStr) (e : TunnelEntry)
        (active : GoStr → Bool),
        r.LookupByHost req.Host = none →
        isWebSocketUpgrade req = false →
        req.URL.Path = '/' :: (sub ++ '/' :: rest) →
        (∀ c ∈ sub, c ≠ '/') →
        r.Lookup (goToLower sub) = some e →
        active e.Session.id = true →
        (HTTPProxy.handleRequest r req active true
            = (.forwarded (forwardRequestBytes
                  { req with URL := { req.URL with Path := '/' :: rest } }),
               { req with URL := { req.URL with Path := '/' :: rest } }) ∧
         List.IsPrefix
           (req.Method ++ (" ".data)
             ++ URL.RequestURI { Path := '/' :: rest, RawQuery := req.URL.RawQuery }
             ++ (" ".data) ++ req.Proto ++ crlf)
           (forwardRequestBytes
             { req with URL := { req.URL with Path := '/' :: rest } }))) ∧
    (∀ (r : Registry) (req : Request) (sub : GoStr) (e : TunnelEntry)
        (active : GoStr → Bool),
        r.LookupByHost req.Host = none →
        isWebSocketUpgrade req = false →
        req.URL.Path = '/' :: sub →
        (∀ c ∈ sub, c ≠ '/') →
        sub ≠ [] →
        r.Lookup (goToLower sub) = some e →
        active e.Session.id = true →
        (HTTPProxy.handleRequest r req active true
            = (.forwarded (forwardRequestBytes
                  { req with URL := { req.URL with Path := ("/".data) } }),
               { req with URL := { req.URL with Path := ("/".data) } }) ∧
         List.IsPrefix
           (req.Method ++ (" ".data)
             ++ URL.RequestURI { Path := ("/".data), RawQuery := req.URL.RawQuery }
             ++ (" ".data) ++ req.Proto ++ crlf)
           (forwardRequestBytes
             { req with URL := { req.URL with Path := ("/".data) } }))) := by
  constructor
  · intro r req sub rest e active hhost hws hpath hsub hfound hactive
    have hlp := lookupByPath_hit r req sub rest e hpath hsub hfound
    constructor
    · simp only [HTTPProxy.handleRequest, hhost, hlp, hws, hactive]
      simp
    · exact forwardRequestBytes_line_prefix
        { req with URL := { req.URL with Path := '/' :: rest } }
  · intro r req sub e active hhost hws hpath hsub hsubne hfound hactive
    have hlp := lookupByPath_hit_root r req sub e hpath hsub hsubne hfound
    constructor
    · simp only [HTTPProxy.handleRequest, hhost, hlp, hws, hactive]
      simp
    · exact forwardRequestBytes_line_prefix
        { req with URL := { req.URL with Path := ("/".data) } }

/-- Closed instance of proxy_path_rewrite_forwarding: the spec's scenario,
request GET /myapp/users?x=1 with myapp registered and no host match; the
rewritten request line is GET /users?x=1 HTTP/1.1 followed by CRLF. -/
theorem proxy_path_rewrite_forwarding_witness :
    (HTTPProxy.handleRequest
        { tunnels := [(("myapp".data),
            { Subdomain := ("myapp".data), LocalPort := 3000, LocalHost := []
              Protocol := [], Session := { id := ("A".data), token := ("ta".data) } })]
          sessions := [], reservedSubdomains := [], domain := ("example.test".data)
          ownerChecker := none }
        { Method := ("GET".data)
          URL := { Path := ("/myapp/users".data), RawQuery := ("x=1".data) }
          Proto := ("HTTP/1.1".data), Host := ("example.test".data), Header := []
          RemoteAddr := ("1.2.3.4:9".data), ContentLength := 0, Body := []
          TLS := false } (fun _ => true) true
      = (.forwarded (forwardRequestBytes
            { Method := ("GET".data)
              URL := { Path := ("/users".data), RawQuery := ("x=1".data) }
              Proto := ("HTTP/1.1".data), Host := ("example.test".data), Header := []
              RemoteAddr := ("1.2.3.4:9".data), ContentLength := 0, Body := []
              TLS := false }),
         { Method := ("GET".data)
           URL := { Path := ("/users".data), RawQuery := ("x=1".data) }
           Proto := ("HTTP/1.1".data), Host := ("example.test".data), Header := []
           RemoteAddr := ("1.2.3.4:9".data), ContentLength := 0, Body := []
           TLS := false })) ∧
    List.IsPrefix ("GET /users?x=1 HTTP/1.1\r\n".data)
      (forwardRequestBytes
        { Method := ("GET".data)
          URL := { Path := ("/users".data), RawQuery := ("x=1".data) }
          Proto := ("HTTP/1.1".data), Host := ("example.test".data), Header := []
          RemoteAddr := ("1.2.3.4:9".data), ContentLength := 0, Body := []
          TLS := false }) := by
  have h := proxy_path_rewrite_forwarding.1
    { tunnels := [(("myapp".data),
        { Subdomain := ("myapp".data), LocalPort := 3000, LocalHost := []
          Protocol := [], Session := { id := ("A".data), token := ("ta".data) } })]
      sessions := [], reservedSubdomains := [], domain := ("example.test".data)
      ownerChecker := none }
    { Method := ("GET".data)
      URL := { Path := ("/myapp/users".data), RawQuery := ("x=1".data) }
      Proto := ("HTTP/1.1".data), Host := ("example.test".data), Header := []
      RemoteAddr := ("1.2.3.4:9".data), ContentLength := 0, Body := []
      TLS := false }
    ("myapp".data) ("users".data)
    { Subdomain := ("myapp".data), LocalPort := 3000, LocalHost := []
      Protocol := [], Session := { id := ("A".data), token := ("ta".data) } }
    (fun _ => true)
    (by decide) (by rfl) (by decide) (by decide) (by decide) (by rfl)
  constructor
  · exact h.1
  · have hline : ("GET /users?x=1 HTTP/1.1\r\n".data)
        = (("GET".data) ++ (" ".data)
            ++ URL.RequestURI { Path := ("/users".data), RawQuery := ("x=1".data) }
            ++ (" ".data) ++ ("HTTP/1.1".data) ++ crlf) := by decide
    rw [hline]
    exact h.2
